import Mathlib

/-!
Verification development for `scripts/code_stats.py` of the OpenHiker
repository.  Lines of a source file are modelled as `List Char`; a file is a
`List (List Char)`.  Each Python classifier function is embedded as a Lean
function built from a per-line step function folded over the lines, mirroring
the Python `for` loop with its local mutable state made explicit.
-/

/-- Python `str.strip()` on a line: drop whitespace from both ends. -/
def pyStrip (s : List Char) : List Char :=
  ((s.dropWhile Char.isWhitespace).reverse.dropWhile Char.isWhitespace).reverse

/-- Python `pat in s` substring test. -/
def containsSubl (pat : List Char) : List Char → Bool
  | [] => pat.isEmpty
  | c :: rest => pat.isPrefixOf (c :: rest) || containsSubl pat rest

/-- Structural worker for `countSubl`: `skip` is the number of characters
still to be skipped over after a match was consumed. -/
def countSublAux (pat : List Char) : List Char → Nat → Nat
  | [], _ => 0
  | _ :: rest, Nat.succ k => countSublAux pat rest k
  | c :: rest, 0 =>
    if pat.isPrefixOf (c :: rest) && !pat.isEmpty then
      1 + countSublAux pat rest (pat.length - 1)
    else
      countSublAux pat rest 0

/-- Python `s.count(pat)`: number of non-overlapping occurrences of `pat`
in `s`, scanning left to right (for non-empty `pat`). -/
def countSubl (pat s : List Char) : Nat := countSublAux pat s 0

/-- Mirrors the Python dataclass `FileStats`. -/
structure FileStats where
  path : String := ""
  total_lines : Nat := 0
  code_lines : Nat := 0
  comment_lines : Nat := 0
  docstring_lines : Nat := 0
  blank_lines : Nat := 0
  language : String := ""
deriving DecidableEq, Repr

/-- Sum of the four category counters of a `FileStats`. -/
def counterSum (s : FileStats) : Nat :=
  s.code_lines + s.comment_lines + s.docstring_lines + s.blank_lines

-- Delimiters used by the brace-comment (Swift/Kotlin) classifiers.

def docBlockOpen : List Char := ['/', '*', '*']

def blockOpen : List Char := ['/', '*']

def blockClose : List Char := ['*', '/']

def docLineMarker : List Char := ['/', '/', '/']

def lineCommentMarker : List Char := ['/', '/']

def hashMarker : List Char := ['#']

/-- Local loop state of `classify_swift_lines` / `classify_kotlin_lines`. -/
structure BraceState where
  in_block_comment : Bool := false
  in_doc_block : Bool := false
deriving DecidableEq, Repr

/-- One iteration of the `for line in lines` loop of `classify_swift_lines`. -/
def swiftStep (acc : BraceState × FileStats) (line : List Char) :
    BraceState × FileStats :=
  let st := acc.1
  let stats := acc.2
  let stripped := pyStrip line
  if stripped.isEmpty then
    (st, { stats with blank_lines := stats.blank_lines + 1 })
  else if st.in_block_comment || st.in_doc_block then
    let stats2 :=
      if st.in_doc_block then
        { stats with docstring_lines := stats.docstring_lines + 1 }
      else
        { stats with comment_lines := stats.comment_lines + 1 }
    if containsSubl blockClose stripped then
      ({ in_block_comment := false, in_doc_block := false }, stats2)
    else
      (st, stats2)
  else if docBlockOpen.isPrefixOf stripped then
    let st2 : BraceState := { st with in_doc_block := true }
    let stats2 := { stats with docstring_lines := stats.docstring_lines + 1 }
    if containsSubl blockClose (stripped.drop 3) then
      ({ st2 with in_doc_block := false }, stats2)
    else
      (st2, stats2)
  else if blockOpen.isPrefixOf stripped then
    let st2 : BraceState := { st with in_block_comment := true }
    let stats2 := { stats with comment_lines := stats.comment_lines + 1 }
    if containsSubl blockClose (stripped.drop 2) then
      ({ st2 with in_block_comment := false }, stats2)
    else
      (st2, stats2)
  else if docLineMarker.isPrefixOf stripped then
    (st, { stats with docstring_lines := stats.docstring_lines + 1 })
  else if lineCommentMarker.isPrefixOf stripped then
    (st, { stats with comment_lines := stats.comment_lines + 1 })
  else
    (st, { stats with code_lines := stats.code_lines + 1 })

/-- Embedding of `classify_swift_lines`. -/
def classify_swift_lines (lines : List (List Char)) : FileStats :=
  let stats0 : FileStats := { language := "Swift", total_lines := lines.length }
  (lines.foldl swiftStep (({} : BraceState), stats0)).2

/-- One iteration of the loop of `classify_kotlin_lines` (the Python body is a
textual copy of the Swift one). -/
def kotlinStep (acc : BraceState × FileStats) (line : List Char) :
    BraceState × FileStats :=
  let st := acc.1
  let stats := acc.2
  let stripped := pyStrip line
  if stripped.isEmpty then
    (st, { stats with blank_lines := stats.blank_lines + 1 })
  else if st.in_block_comment || st.in_doc_block then
    let stats2 :=
      if st.in_doc_block then
        { stats with docstring_lines := stats.docstring_lines + 1 }
      else
        { stats with comment_lines := stats.comment_lines + 1 }
    if containsSubl blockClose stripped then
      ({ in_block_comment := false, in_doc_block := false }, stats2)
    else
      (st, stats2)
  else if docBlockOpen.isPrefixOf stripped then
    let st2 : BraceState := { st with in_doc_block := true }
    let stats2 := { stats with docstring_lines := stats.docstring_lines + 1 }
    if containsSubl blockClose (stripped.drop 3) then
      ({ st2 with in_doc_block := false }, stats2)
    else
      (st2, stats2)
  else if blockOpen.isPrefixOf stripped then
    let st2 : BraceState := { st with in_block_comment := true }
    let stats2 := { stats with comment_lines := stats.comment_lines + 1 }
    if containsSubl blockClose (stripped.drop 2) then
      ({ st2 with in_block_comment := false }, stats2)
    else
      (st2, stats2)
  else if docLineMarker.isPrefixOf stripped then
    (st, { stats with docstring_lines := stats.docstring_lines + 1 })
  else if lineCommentMarker.isPrefixOf stripped then
    (st, { stats with comment_lines := stats.comment_lines + 1 })
  else
    (st, { stats with code_lines := stats.code_lines + 1 })

/-- Embedding of `classify_kotlin_lines`. -/
def classify_kotlin_lines (lines : List (List Char)) : FileStats :=
  let stats0 : FileStats := { language := "Kotlin", total_lines := lines.length }
  (lines.foldl kotlinStep (({} : BraceState), stats0)).2

/-- The single-quote character, written via its code point. -/
def squote : Char := Char.ofNat 39

def tripleDouble : List Char := ['"', '"', '"']

def tripleSingle : List Char := [squote, squote, squote]

/-- Local loop state of `classify_python_lines`. -/
structure PyState where
  in_docstring : Bool := false
  docstring_delimiter : Option (List Char) := none
deriving DecidableEq, Repr

/-- One iteration of the loop of `classify_python_lines`. -/
def pythonStep (acc : PyState × FileStats) (line : List Char) :
    PyState × FileStats :=
  let st := acc.1
  let stats := acc.2
  let stripped := pyStrip line
  if stripped.isEmpty then
    (st, { stats with blank_lines := stats.blank_lines + 1 })
  else if st.in_docstring then
    let stats2 := { stats with docstring_lines := stats.docstring_lines + 1 }
    match st.docstring_delimiter with
    | some d =>
      if containsSubl d stripped then
        ({ in_docstring := false, docstring_delimiter := none }, stats2)
      else
        (st, stats2)
    | none => (st, stats2)
  else if tripleDouble.isPrefixOf stripped || tripleSingle.isPrefixOf stripped then
    let delimiter := stripped.take 3
    if 2 ≤ countSubl delimiter stripped ∧ 3 < stripped.length then
      (st, { stats with docstring_lines := stats.docstring_lines + 1 })
    else
      ({ in_docstring := true, docstring_delimiter := some delimiter },
        { stats with docstring_lines := stats.docstring_lines + 1 })
  else if hashMarker.isPrefixOf stripped then
    (st, { stats with comment_lines := stats.comment_lines + 1 })
  else
    (st, { stats with code_lines := stats.code_lines + 1 })

/-- Embedding of `classify_python_lines`. -/
def classify_python_lines (lines : List (List Char)) : FileStats :=
  let stats0 : FileStats := { language := "Python", total_lines := lines.length }
  (lines.foldl pythonStep (({} : PyState), stats0)).2

def xmlOpenMarker : List Char := ['<', '!', '-', '-']

def xmlCloseMarker : List Char := ['-', '-', '>']

/-- Local loop state of `classify_xml_lines`. -/
structure XmlState where
  in_comment : Bool := false
deriving DecidableEq, Repr

/-- One iteration of the loop of `classify_xml_lines`. -/
def xmlStep (acc : XmlState × FileStats) (line : List Char) :
    XmlState × FileStats :=
  let st := acc.1
  let stats := acc.2
  let stripped := pyStrip line
  if stripped.isEmpty then
    (st, { stats with blank_lines := stats.blank_lines + 1 })
  else if st.in_comment then
    let stats2 := { stats with comment_lines := stats.comment_lines + 1 }
    if containsSubl xmlCloseMarker stripped then
      ({ in_comment := false }, stats2)
    else
      (st, stats2)
  else if xmlOpenMarker.isPrefixOf stripped then
    let stats2 := { stats with comment_lines := stats.comment_lines + 1 }
    if !containsSubl xmlCloseMarker (stripped.drop 4) then
      ({ in_comment := true }, stats2)
    else
      (st, stats2)
  else
    (st, { stats with code_lines := stats.code_lines + 1 })

/-- Embedding of `classify_xml_lines`. -/
def classify_xml_lines (lines : List (List Char)) : FileStats :=
  let stats0 : FileStats := { language := "XML", total_lines := lines.length }
  (lines.foldl xmlStep (({} : XmlState), stats0)).2

/-- One iteration of the loop of `classify_markdown_lines` (stateless). -/
def markdownStep (stats : FileStats) (line : List Char) : FileStats :=
  if !(pyStrip line).isEmpty then
    { stats with docstring_lines := stats.docstring_lines + 1 }
  else
    { stats with blank_lines := stats.blank_lines + 1 }

/-- Embedding of `classify_markdown_lines`. -/
def classify_markdown_lines (lines : List (List Char)) : FileStats :=
  let stats0 : FileStats := { language := "Markdown", total_lines := lines.length }
  lines.foldl markdownStep stats0

/-- One iteration of the loop of `classify_yaml_lines` (stateless). -/
def yamlStep (stats : FileStats) (line : List Char) : FileStats :=
  let stripped := pyStrip line
  if stripped.isEmpty then
    { stats with blank_lines := stats.blank_lines + 1 }
  else if hashMarker.isPrefixOf stripped then
    { stats with comment_lines := stats.comment_lines + 1 }
  else
    { stats with code_lines := stats.code_lines + 1 }

/-- Embedding of `classify_yaml_lines`. -/
def classify_yaml_lines (lines : List (List Char)) : FileStats :=
  let stats0 : FileStats := { language := "YAML", total_lines := lines.length }
  lines.foldl yamlStep stats0

/-- One iteration of the loop of `classify_generic_lines` (stateless). -/
def genericStep (stats : FileStats) (line : List Char) : FileStats :=
  let stripped := pyStrip line
  if stripped.isEmpty then
    { stats with blank_lines := stats.blank_lines + 1 }
  else if lineCommentMarker.isPrefixOf stripped || hashMarker.isPrefixOf stripped then
    { stats with comment_lines := stats.comment_lines + 1 }
  else
    { stats with code_lines := stats.code_lines + 1 }

/-- Embedding of `classify_generic_lines`. -/
def classify_generic_lines (lines : List (List Char)) (language : String) : FileStats :=
  let stats0 : FileStats := { language := language, total_lines := lines.length }
  lines.foldl genericStep stats0

/-- Mirrors the Python dataclass `PlatformStats` (name plus collected files). -/
structure PlatformStats where
  name : String := ""
  files : List FileStats := []
deriving DecidableEq, Repr

/-- Property `PlatformStats.total_files`. -/
def PlatformStats.total_files (ps : PlatformStats) : Nat := ps.files.length

/-- Property `PlatformStats.total_lines`. -/
def PlatformStats.total_lines (ps : PlatformStats) : Nat :=
  (ps.files.map (fun f => f.total_lines)).sum

/-- Property `PlatformStats.code_lines`. -/
def PlatformStats.code_lines (ps : PlatformStats) : Nat :=
  (ps.files.map (fun f => f.code_lines)).sum

/-- Property `PlatformStats.comment_lines`. -/
def PlatformStats.comment_lines (ps : PlatformStats) : Nat :=
  (ps.files.map (fun f => f.comment_lines)).sum

/-- Property `PlatformStats.docstring_lines`. -/
def PlatformStats.docstring_lines (ps : PlatformStats) : Nat :=
  (ps.files.map (fun f => f.docstring_lines)).sum

/-- Property `PlatformStats.blank_lines`. -/
def PlatformStats.blank_lines (ps : PlatformStats) : Nat :=
  (ps.files.map (fun f => f.blank_lines)).sum

/-- Property `PlatformStats.file_lengths`: the sorted list of file lengths. -/
def PlatformStats.file_lengths (ps : PlatformStats) : List Nat :=
  (ps.files.map (fun f => f.total_lines)).mergeSort (fun a b => decide (a ≤ b))

/-- Python `int(...)` applied to a rational: truncation toward zero. -/
def pyInt (q : Rat) : Int := q.num.tdiv q.den

/-- Python list indexing `l[i]`: negative indices count from the end, and an
index that is still out of range raises (modelled as `none`). -/
def pyIndex (l : List Nat) (i : Int) : Option Nat :=
  let j := if i < 0 then (l.length : Int) + i else i
  if 0 ≤ j then l[j.toNat]? else none

/-- Method `PlatformStats.percentile`: the p-th percentile of file lengths. -/
def PlatformStats.percentile (ps : PlatformStats) (p : Rat) : Option Nat :=
  let lengths := ps.file_lengths
  if lengths.isEmpty then some 0
  else
    pyIndex lengths
      (min (pyInt ((lengths.length : Rat) * p / 100)) ((lengths.length : Int) - 1))

/-- Embedding of the helper `_pctl` (same computation on a given sorted list). -/
def pctl (lengths : List Nat) (p : Rat) : Option Nat :=
  if lengths.isEmpty then some 0
  else
    pyIndex lengths
      (min (pyInt ((lengths.length : Rat) * p / 100)) ((lengths.length : Int) - 1))

/-- Possible outcomes of running `main`, with the process exit code made
explicit for the early-exit paths. -/
inductive MainResult where
  | invalidRoot (exitCode : Nat)
  | emptyResult (exitCode : Nat)
  | report (platforms : List (String × PlatformStats))
deriving DecidableEq

/-- Control-flow skeleton of `main` after argument parsing: the `os.path.isdir`
outcome is passed in as a boolean, and the directory traversal `walk_project`
is passed in as an oracle function, so that its (non-)invocation is visible. -/
def main_run (isdir : Bool) (walk : Unit → List (String × PlatformStats)) :
    MainResult :=
  if !isdir then
    MainResult.invalidRoot 1
  else
    let platforms := walk ()
    if platforms.isEmpty then
      MainResult.emptyResult 0
    else
      MainResult.report platforms

/-! ### Generic fold lemmas for the per-line loops -/

/-- Folding a step function that always classifies exactly one line adds the
number of lines to the counter sum and preserves `total_lines` (stateful
classifiers). -/
theorem foldl_counts {σ : Type}
    (step : σ × FileStats → List Char → σ × FileStats)
    (hsum : ∀ acc line, counterSum (step acc line).2 = counterSum acc.2 + 1)
    (htot : ∀ acc line, (step acc line).2.total_lines = acc.2.total_lines)
    (lines : List (List Char)) :
    ∀ acc : σ × FileStats,
      counterSum ((lines.foldl step acc).2) = counterSum acc.2 + lines.length ∧
      ((lines.foldl step acc).2).total_lines = acc.2.total_lines := by
  induction lines with
  | nil => intro acc; simp
  | cons l ls ih =>
    intro acc
    simp only [List.foldl_cons, List.length_cons]
    have h := ih (step acc l)
    exact ⟨by rw [h.1, hsum acc l]; omega, by rw [h.2, htot acc l]⟩

/-- Same as `foldl_counts` for the stateless classifiers. -/
theorem foldl_counts_plain
    (step : FileStats → List Char → FileStats)
    (hsum : ∀ stats line, counterSum (step stats line) = counterSum stats + 1)
    (htot : ∀ stats line, (step stats line).total_lines = stats.total_lines)
    (lines : List (List Char)) :
    ∀ stats : FileStats,
      counterSum (lines.foldl step stats) = counterSum stats + lines.length ∧
      (lines.foldl step stats).total_lines = stats.total_lines := by
  induction lines with
  | nil => intro stats; simp
  | cons l ls ih =>
    intro stats
    simp only [List.foldl_cons, List.length_cons]
    have h := ih (step stats l)
    exact ⟨by rw [h.1, hsum stats l]; omega, by rw [h.2, htot stats l]⟩

/-! ### Per-step lemmas -/

theorem swiftStep_counterSum (acc : BraceState × FileStats) (line : List Char) :
    counterSum (swiftStep acc line).2 = counterSum acc.2 + 1 := by
  simp only [swiftStep]
  repeat' split
  all_goals simp [counterSum]
  all_goals omega

theorem swiftStep_total (acc : BraceState × FileStats) (line : List Char) :
    (swiftStep acc line).2.total_lines = acc.2.total_lines := by
  simp only [swiftStep]
  repeat' split
  all_goals rfl

/-- The Kotlin loop body is a textual copy of the Swift one. -/
theorem kotlinStep_eq_swiftStep : kotlinStep = swiftStep := rfl

theorem pythonStep_counterSum (acc : PyState × FileStats) (line : List Char) :
    counterSum (pythonStep acc line).2 = counterSum acc.2 + 1 := by
  simp only [pythonStep]
  repeat' split
  all_goals simp [counterSum]
  all_goals omega

theorem pythonStep_total (acc : PyState × FileStats) (line : List Char) :
    (pythonStep acc line).2.total_lines = acc.2.total_lines := by
  simp only [pythonStep]
  repeat' split
  all_goals rfl

theorem xmlStep_counterSum (acc : XmlState × FileStats) (line : List Char) :
    counterSum (xmlStep acc line).2 = counterSum acc.2 + 1 := by
  simp only [xmlStep]
  repeat' split
  all_goals simp [counterSum]
  all_goals omega

theorem xmlStep_total (acc : XmlState × FileStats) (line : List Char) :
    (xmlStep acc line).2.total_lines = acc.2.total_lines := by
  simp only [xmlStep]
  repeat' split
  all_goals rfl

theorem markdownStep_counterSum (stats : FileStats) (line : List Char) :
    counterSum (markdownStep stats line) = counterSum stats + 1 := by
  simp only [markdownStep]
  repeat' split
  all_goals simp [counterSum]
  all_goals omega

theorem markdownStep_total (stats : FileStats) (line : List Char) :
    (markdownStep stats line).total_lines = stats.total_lines := by
  simp only [markdownStep]
  repeat' split
  all_goals rfl

theorem yamlStep_counterSum (stats : FileStats) (line : List Char) :
    counterSum (yamlStep stats line) = counterSum stats + 1 := by
  simp only [yamlStep]
  repeat' split
  all_goals simp [counterSum]
  all_goals omega

theorem yamlStep_total (stats : FileStats) (line : List Char) :
    (yamlStep stats line).total_lines = stats.total_lines := by
  simp only [yamlStep]
  repeat' split
  all_goals rfl

theorem genericStep_counterSum (stats : FileStats) (line : List Char) :
    counterSum (genericStep stats line) = counterSum stats + 1 := by
  simp only [genericStep]
  repeat' split
  all_goals simp [counterSum]
  all_goals omega

theorem genericStep_total (stats : FileStats) (line : List Char) :
    (genericStep stats line).total_lines = stats.total_lines := by
  simp only [genericStep]
  repeat' split
  all_goals rfl

/-! ### Partition helpers, one per classifier -/

theorem classify_swift_partition (lines : List (List Char)) :
    counterSum (classify_swift_lines lines) = lines.length ∧
    (classify_swift_lines lines).total_lines = lines.length := by
  have h := foldl_counts swiftStep swiftStep_counterSum swiftStep_total lines
    (({} : BraceState), { language := "Swift", total_lines := lines.length })
  simpa [classify_swift_lines, counterSum] using h

theorem classify_kotlin_partition (lines : List (List Char)) :
    counterSum (classify_kotlin_lines lines) = lines.length ∧
    (classify_kotlin_lines lines).total_lines = lines.length := by
  have h := foldl_counts kotlinStep
    (by rw [kotlinStep_eq_swiftStep]; exact swiftStep_counterSum)
    (by rw [kotlinStep_eq_swiftStep]; exact swiftStep_total) lines
    (({} : BraceState), { language := "Kotlin", total_lines := lines.length })
  simpa [classify_kotlin_lines, counterSum] using h

theorem classify_python_partition (lines : List (List Char)) :
    counterSum (classify_python_lines lines) = lines.length ∧
    (classify_python_lines lines).total_lines = lines.length := by
  have h := foldl_counts pythonStep pythonStep_counterSum pythonStep_total lines
    (({} : PyState), { language := "Python", total_lines := lines.length })
  simpa [classify_python_lines, counterSum] using h

theorem classify_xml_partition (lines : List (List Char)) :
    counterSum (classify_xml_lines lines) = lines.length ∧
    (classify_xml_lines lines).total_lines = lines.length := by
  have h := foldl_counts xmlStep xmlStep_counterSum xmlStep_total lines
    (({} : XmlState), { language := "XML", total_lines := lines.length })
  simpa [classify_xml_lines, counterSum] using h

theorem classify_markdown_partition (lines : List (List Char)) :
    counterSum (classify_markdown_lines lines) = lines.length ∧
    (classify_markdown_lines lines).total_lines = lines.length := by
  have h := foldl_counts_plain markdownStep markdownStep_counterSum
    markdownStep_total lines { language := "Markdown", total_lines := lines.length }
  simpa [classify_markdown_lines, counterSum] using h

theorem classify_yaml_partition (lines : List (List Char)) :
    counterSum (classify_yaml_lines lines) = lines.length ∧
    (classify_yaml_lines lines).total_lines = lines.length := by
  have h := foldl_counts_plain yamlStep yamlStep_counterSum
    yamlStep_total lines { language := "YAML", total_lines := lines.length }
  simpa [classify_yaml_lines, counterSum] using h

theorem classify_generic_partition (lines : List (List Char)) (language : String) :
    counterSum (classify_generic_lines lines language) = lines.length ∧
    (classify_generic_lines lines language).total_lines = lines.length := by
  have h := foldl_counts_plain genericStep genericStep_counterSum
    genericStep_total lines { language := language, total_lines := lines.length }
  simpa [classify_generic_lines, counterSum] using h

/-! ### The Kotlin classifier is the Swift classifier with another tag -/

theorem swiftStep_setLang (st : BraceState) (stats : FileStats) (L : String)
    (line : List Char) :
    swiftStep (st, { stats with language := L }) line =
      ((swiftStep (st, stats) line).1,
        { (swiftStep (st, stats) line).2 with language := L }) := by
  simp only [swiftStep]
  repeat' split
  all_goals rfl

theorem foldl_swiftStep_setLang (lines : List (List Char)) :
    ∀ (st : BraceState) (stats : FileStats) (L : String),
      lines.foldl swiftStep (st, { stats with language := L }) =
        ((lines.foldl swiftStep (st, stats)).1,
          { (lines.foldl swiftStep (st, stats)).2 with language := L }) := by
  induction lines with
  | nil => intro st stats L; rfl
  | cons l ls ih =>
    intro st stats L
    simp only [List.foldl_cons]
    rw [swiftStep_setLang]
    rw [ih]

theorem classify_kotlin_as_swift (lines : List (List Char)) :
    classify_kotlin_lines lines =
      { classify_swift_lines lines with language := "Kotlin" } := by
  show (lines.foldl kotlinStep
      (({} : BraceState),
        ({ language := "Kotlin", total_lines := lines.length } : FileStats))).2 = _
  rw [kotlinStep_eq_swiftStep]
  have h1 : ({ language := "Kotlin", total_lines := lines.length } : FileStats) =
      { ({ total_lines := lines.length } : FileStats) with language := "Kotlin" } := rfl
  have h2 : classify_swift_lines lines =
      { (lines.foldl swiftStep
          (({} : BraceState),
            ({ total_lines := lines.length } : FileStats))).2 with language := "Swift" } := by
    show (lines.foldl swiftStep
        (({} : BraceState),
          ({ language := "Swift", total_lines := lines.length } : FileStats))).2 = _
    rw [show ({ language := "Swift", total_lines := lines.length } : FileStats) =
        { ({ total_lines := lines.length } : FileStats) with language := "Swift" } from rfl]
    rw [foldl_swiftStep_setLang]
  rw [h1, foldl_swiftStep_setLang, h2]

/-! ### Behaviour of the brace-comment step in Normal state -/

theorem isEmpty_false_of_isPrefixOf (c : Char) (pat s : List Char)
    (h : (c :: pat).isPrefixOf s = true) : s.isEmpty = false := by
  cases s with
  | nil => simp [List.isPrefixOf] at h
  | cons a l => rfl

theorem swiftStep_doc_open_close (stats : FileStats) (line : List Char)
    (h1 : docBlockOpen.isPrefixOf (pyStrip line) = true)
    (h2 : containsSubl blockClose ((pyStrip line).drop 3) = true) :
    swiftStep (({} : BraceState), stats) line =
      (({} : BraceState),
        { stats with docstring_lines := stats.docstring_lines + 1 }) := by
  have hne := isEmpty_false_of_isPrefixOf _ _ _ h1
  simp [swiftStep, hne, h1, h2]

theorem swiftStep_doc_open_stay (stats : FileStats) (line : List Char)
    (h1 : docBlockOpen.isPrefixOf (pyStrip line) = true)
    (h2 : containsSubl blockClose ((pyStrip line).drop 3) = false) :
    swiftStep (({} : BraceState), stats) line =
      ({ in_block_comment := false, in_doc_block := true },
        { stats with docstring_lines := stats.docstring_lines + 1 }) := by
  have hne := isEmpty_false_of_isPrefixOf _ _ _ h1
  simp [swiftStep, hne, h1, h2]

theorem swiftStep_block_open_close (stats : FileStats) (line : List Char)
    (h0 : docBlockOpen.isPrefixOf (pyStrip line) = false)
    (h1 : blockOpen.isPrefixOf (pyStrip line) = true)
    (h2 : containsSubl blockClose ((pyStrip line).drop 2) = true) :
    swiftStep (({} : BraceState), stats) line =
      (({} : BraceState),
        { stats with comment_lines := stats.comment_lines + 1 }) := by
  have hne := isEmpty_false_of_isPrefixOf _ _ _ h1
  simp [swiftStep, hne, h0, h1, h2]

theorem swiftStep_block_open_stay (stats : FileStats) (line : List Char)
    (h0 : docBlockOpen.isPrefixOf (pyStrip line) = false)
    (h1 : blockOpen.isPrefixOf (pyStrip line) = true)
    (h2 : containsSubl blockClose ((pyStrip line).drop 2) = false) :
    swiftStep (({} : BraceState), stats) line =
      ({ in_block_comment := true, in_doc_block := false },
        { stats with comment_lines := stats.comment_lines + 1 }) := by
  have hne := isEmpty_false_of_isPrefixOf _ _ _ h1
  simp [swiftStep, hne, h0, h1, h2]

theorem swiftStep_doc_line (stats : FileStats) (line : List Char)
    (h0 : docBlockOpen.isPrefixOf (pyStrip line) = false)
    (h1 : blockOpen.isPrefixOf (pyStrip line) = false)
    (h2 : docLineMarker.isPrefixOf (pyStrip line) = true) :
    swiftStep (({} : BraceState), stats) line =
      (({} : BraceState),
        { stats with docstring_lines := stats.docstring_lines + 1 }) := by
  have hne := isEmpty_false_of_isPrefixOf _ _ _ h2
  simp [swiftStep, hne, h0, h1, h2]

theorem swiftStep_line_comment (stats : FileStats) (line : List Char)
    (h0 : docBlockOpen.isPrefixOf (pyStrip line) = false)
    (h1 : blockOpen.isPrefixOf (pyStrip line) = false)
    (h2 : docLineMarker.isPrefixOf (pyStrip line) = false)
    (h3 : lineCommentMarker.isPrefixOf (pyStrip line) = true) :
    swiftStep (({} : BraceState), stats) line =
      (({} : BraceState),
        { stats with comment_lines := stats.comment_lines + 1 }) := by
  have hne := isEmpty_false_of_isPrefixOf _ _ _ h3
  simp [swiftStep, hne, h0, h1, h2, h3]

theorem swiftStep_code (stats : FileStats) (line : List Char)
    (hne : (pyStrip line).isEmpty = false)
    (h0 : docBlockOpen.isPrefixOf (pyStrip line) = false)
    (h1 : blockOpen.isPrefixOf (pyStrip line) = false)
    (h2 : docLineMarker.isPrefixOf (pyStrip line) = false)
    (h3 : lineCommentMarker.isPrefixOf (pyStrip line) = false) :
    swiftStep (({} : BraceState), stats) line =
      (({} : BraceState),
        { stats with code_lines := stats.code_lines + 1 }) := by
  simp [swiftStep, hne, h0, h1, h2, h3]

/-! ### Language tag preservation -/

theorem swiftStep_language (acc : BraceState × FileStats) (line : List Char) :
    (swiftStep acc line).2.language = acc.2.language := by
  simp only [swiftStep]
  repeat' split
  all_goals rfl

theorem foldl_swiftStep_language (lines : List (List Char)) :
    ∀ acc : BraceState × FileStats,
      ((lines.foldl swiftStep acc).2).language = acc.2.language := by
  induction lines with
  | nil => intro acc; rfl
  | cons l ls ih =>
    intro acc
    simp only [List.foldl_cons]
    rw [ih (swiftStep acc l), swiftStep_language]

theorem classify_swift_language (lines : List (List Char)) :
    (classify_swift_lines lines).language = "Swift" := by
  show ((lines.foldl swiftStep
    (({} : BraceState),
      ({ language := "Swift", total_lines := lines.length } : FileStats))).2).language = _
  rw [foldl_swiftStep_language]

/-! ### Percentile lemmas -/

theorem pyIndex_nonneg (l : List Nat) (i : Int) (h0 : 0 ≤ i)
    (h2 : i.toNat < l.length) : pyIndex l i = some l[i.toNat] := by
  simp [pyIndex, not_lt.mpr h0, h0, List.getElem?_eq_getElem h2]

theorem pctl_spec (lengths : List Nat) (p : Rat) (hp : 0 ≤ p) :
    (lengths = [] → pctl lengths p = some 0) ∧
    (lengths ≠ [] → ∃ v ∈ lengths, pctl lengths p = some v) := by
  constructor
  · intro h; subst h; rfl
  · intro h
    have hie : lengths.isEmpty = false := List.isEmpty_eq_false.mpr h
    have hlen : 0 < lengths.length := List.length_pos.mpr h
    have hq : 0 ≤ ((lengths.length : Rat) * p / 100) := by positivity
    have hnum : 0 ≤ ((lengths.length : Rat) * p / 100).num := Rat.num_nonneg.mpr hq
    have hint : 0 ≤ pyInt ((lengths.length : Rat) * p / 100) :=
      Int.tdiv_nonneg hnum (Int.ofNat_nonneg _)
    have h0 : (0 : Int) ≤
        min (pyInt ((lengths.length : Rat) * p / 100)) ((lengths.length : Int) - 1) :=
      le_min hint (by omega)
    have hle :
        min (pyInt ((lengths.length : Rat) * p / 100)) ((lengths.length : Int) - 1) ≤
          (lengths.length : Int) - 1 := min_le_right _ _
    have h2 :
        (min (pyInt ((lengths.length : Rat) * p / 100))
          ((lengths.length : Int) - 1)).toNat < lengths.length := by omega
    refine ⟨_, List.getElem_mem h2, ?_⟩
    show pctl lengths p = _
    rw [pctl, if_neg (by simp [hie]), pyIndex_nonneg _ _ h0 h2]

theorem percentile_eq_pctl (ps : PlatformStats) (p : Rat) :
    ps.percentile p = pctl ps.file_lengths p := rfl

theorem file_lengths_nil (ps : PlatformStats) (h : ps.files = []) :
    ps.file_lengths = [] := by
  simp [PlatformStats.file_lengths, h]

theorem file_lengths_ne_nil (ps : PlatformStats) (h : ps.files ≠ []) :
    ps.file_lengths ≠ [] := by
  intro hc
  apply h
  have hlen := congrArg List.length hc
  rw [PlatformStats.file_lengths, List.length_mergeSort, List.length_map] at hlen
  exact List.length_eq_zero.mp hlen

theorem file_lengths_mem (ps : PlatformStats) (v : Nat)
    (h : v ∈ ps.file_lengths) : ∃ f ∈ ps.files, f.total_lines = v := by
  rw [PlatformStats.file_lengths, List.mem_mergeSort] at h
  exact List.mem_map.mp h

/-! ### Claim theorems -/

/-- C1: for every classifier (Swift, Kotlin, Python, XML, Markdown, YAML and
the generic fallback) and every input line sequence, the produced record
satisfies code + comment + documentation + blank = total = number of input
lines; in particular the empty input yields all counters zero. -/
theorem classifier_partition_invariant (lines : List (List Char)) (language : String) :
    (counterSum (classify_swift_lines lines) = (classify_swift_lines lines).total_lines ∧
      (classify_swift_lines lines).total_lines = lines.length) ∧
    (counterSum (classify_kotlin_lines lines) = (classify_kotlin_lines lines).total_lines ∧
      (classify_kotlin_lines lines).total_lines = lines.length) ∧
    (counterSum (classify_python_lines lines) = (classify_python_lines lines).total_lines ∧
      (classify_python_lines lines).total_lines = lines.length) ∧
    (counterSum (classify_xml_lines lines) = (classify_xml_lines lines).total_lines ∧
      (classify_xml_lines lines).total_lines = lines.length) ∧
    (counterSum (classify_markdown_lines lines) = (classify_markdown_lines lines).total_lines ∧
      (classify_markdown_lines lines).total_lines = lines.length) ∧
    (counterSum (classify_yaml_lines lines) = (classify_yaml_lines lines).total_lines ∧
      (classify_yaml_lines lines).total_lines = lines.length) ∧
    (counterSum (classify_generic_lines lines language) =
        (classify_generic_lines lines language).total_lines ∧
      (classify_generic_lines lines language).total_lines = lines.length) ∧
    (classify_swift_lines [] = { language := "Swift" } ∧
      classify_kotlin_lines [] = { language := "Kotlin" } ∧
      classify_python_lines [] = { language := "Python" } ∧
      classify_xml_lines [] = { language := "XML" } ∧
      classify_markdown_lines [] = { language := "Markdown" } ∧
      classify_yaml_lines [] = { language := "YAML" } ∧
      classify_generic_lines [] language = { language := language }) := by
  refine ⟨⟨?_, (classify_swift_partition lines).2⟩,
    ⟨?_, (classify_kotlin_partition lines).2⟩,
    ⟨?_, (classify_python_partition lines).2⟩,
    ⟨?_, (classify_xml_partition lines).2⟩,
    ⟨?_, (classify_markdown_partition lines).2⟩,
    ⟨?_, (classify_yaml_partition lines).2⟩,
    ⟨?_, (classify_generic_partition lines language).2⟩,
    rfl, rfl, rfl, rfl, rfl, rfl, rfl⟩
  · exact (classify_swift_partition lines).1.trans
      (classify_swift_partition lines).2.symm
  · exact (classify_kotlin_partition lines).1.trans
      (classify_kotlin_partition lines).2.symm
  · exact (classify_python_partition lines).1.trans
      (classify_python_partition lines).2.symm
  · exact (classify_xml_partition lines).1.trans
      (classify_xml_partition lines).2.symm
  · exact (classify_markdown_partition lines).1.trans
      (classify_markdown_partition lines).2.symm
  · exact (classify_yaml_partition lines).1.trans
      (classify_yaml_partition lines).2.symm
  · exact (classify_generic_partition lines language).1.trans
      (classify_generic_partition lines language).2.symm

/-- C2: for every classifier, a line of only whitespace (empty after strip) is
counted Blank regardless of the current state — including inside an open block
comment, doc block or docstring — and causes no state transition. -/
theorem blank_priority (line : List Char)
    (hblank : (pyStrip line).isEmpty = true) :
    (∀ (st : BraceState) (stats : FileStats),
      swiftStep (st, stats) line =
        (st, { stats with blank_lines := stats.blank_lines + 1 }) ∧
      kotlinStep (st, stats) line =
        (st, { stats with blank_lines := stats.blank_lines + 1 })) ∧
    (∀ (st : PyState) (stats : FileStats),
      pythonStep (st, stats) line =
        (st, { stats with blank_lines := stats.blank_lines + 1 })) ∧
    (∀ (st : XmlState) (stats : FileStats),
      xmlStep (st, stats) line =
        (st, { stats with blank_lines := stats.blank_lines + 1 })) ∧
    (∀ stats : FileStats,
      markdownStep stats line = { stats with blank_lines := stats.blank_lines + 1 } ∧
      yamlStep stats line = { stats with blank_lines := stats.blank_lines + 1 } ∧
      genericStep stats line = { stats with blank_lines := stats.blank_lines + 1 }) := by
  refine ⟨fun st stats => ⟨?_, ?_⟩, fun st stats => ?_, fun st stats => ?_,
    fun stats => ⟨?_, ?_, ?_⟩⟩
  all_goals simp [swiftStep, kotlinStep, pythonStep, xmlStep, markdownStep,
    yamlStep, genericStep, hblank]

/-- Witness for C2 at the single-space line, with the state inside an open
doc block. -/
theorem blank_priority_witness :
    swiftStep ({ in_block_comment := false, in_doc_block := true },
        ({} : FileStats)) [' '] =
      ({ in_block_comment := false, in_doc_block := true },
        { ({} : FileStats) with blank_lines := 1 }) :=
  ((blank_priority [' '] (by decide)).1 _ _).1

/-- C7: when the resolved root is not a directory, `main` reports the error
and exits with status 1, without invoking the directory traversal (the result
does not depend on the traversal oracle) and without producing statistics. -/
theorem invalid_root_exits (walk walk2 : Unit → List (String × PlatformStats)) :
    main_run false walk = MainResult.invalidRoot 1 ∧
    main_run false walk = main_run false walk2 ∧ (1 : Nat) ≠ 0 :=
  ⟨rfl, rfl, by decide⟩

/-- C8: for every input, the Swift and Kotlin classifiers produce records with
identical total, code, comment, docstring and blank counts, differing only in
the language tag. -/
theorem swift_kotlin_equiv (lines : List (List Char)) :
    (classify_kotlin_lines lines).total_lines = (classify_swift_lines lines).total_lines ∧
    (classify_kotlin_lines lines).code_lines = (classify_swift_lines lines).code_lines ∧
    (classify_kotlin_lines lines).comment_lines = (classify_swift_lines lines).comment_lines ∧
    (classify_kotlin_lines lines).docstring_lines = (classify_swift_lines lines).docstring_lines ∧
    (classify_kotlin_lines lines).blank_lines = (classify_swift_lines lines).blank_lines ∧
    (classify_kotlin_lines lines).language = "Kotlin" ∧
    (classify_swift_lines lines).language = "Swift" := by
  rw [classify_kotlin_as_swift]
  exact ⟨rfl, rfl, rfl, rfl, rfl, rfl, classify_swift_language lines⟩

/-- C9: a Normal-state line that strips to exactly the four characters of a
doc opener immediately followed by a closer is counted Documentation and
leaves the classifier inside an open doc block; consequently the two-line
input built from that line and a code line yields documentation = 2 and
code = 0. -/
theorem doc_open_close_overlap :
    (∀ (stats : FileStats) (line : List Char),
      pyStrip line = ['/', '*', '*', '/'] →
      swiftStep (({} : BraceState), stats) line =
        ({ in_block_comment := false, in_doc_block := true },
          { stats with docstring_lines := stats.docstring_lines + 1 })) ∧
    classify_swift_lines [['/', '*', '*', '/'], ['x']] =
      { language := "Swift", total_lines := 2, docstring_lines := 2 } := by
  constructor
  · intro stats line h
    exact swiftStep_doc_open_stay stats line (by rw [h]; decide) (by rw [h]; decide)
  · decide

/-- Witness for C9 at the literal line. -/
theorem doc_open_close_overlap_witness :
    swiftStep (({} : BraceState), ({} : FileStats)) ['/', '*', '*', '/'] =
      ({ in_block_comment := false, in_doc_block := true },
        { ({} : FileStats) with docstring_lines := 1 }) :=
  doc_open_close_overlap.1 ({} : FileStats) ['/', '*', '*', '/'] (by decide)

/-- C3: in the brace-comment classifiers, a Normal-state line opening a doc
block (or plain block) whose remainder after the opener contains the closer is
counted once as Documentation (resp. Comment) and the classifier is back in
Normal state afterwards. -/
theorem single_line_collapse (stats : FileStats) (line : List Char) :
    (docBlockOpen.isPrefixOf (pyStrip line) = true →
      containsSubl blockClose ((pyStrip line).drop 3) = true →
      swiftStep (({} : BraceState), stats) line =
        (({} : BraceState),
          { stats with docstring_lines := stats.docstring_lines + 1 }) ∧
      kotlinStep (({} : BraceState), stats) line =
        (({} : BraceState),
          { stats with docstring_lines := stats.docstring_lines + 1 })) ∧
    (docBlockOpen.isPrefixOf (pyStrip line) = false →
      blockOpen.isPrefixOf (pyStrip line) = true →
      containsSubl blockClose ((pyStrip line).drop 2) = true →
      swiftStep (({} : BraceState), stats) line =
        (({} : BraceState),
          { stats with comment_lines := stats.comment_lines + 1 }) ∧
      kotlinStep (({} : BraceState), stats) line =
        (({} : BraceState),
          { stats with comment_lines := stats.comment_lines + 1 })) := by
  constructor
  · intro h1 h2
    have hs := swiftStep_doc_open_close stats line h1 h2
    exact ⟨hs, by rw [kotlinStep_eq_swiftStep]; exact hs⟩
  · intro h0 h1 h2
    have hs := swiftStep_block_open_close stats line h0 h1 h2
    exact ⟨hs, by rw [kotlinStep_eq_swiftStep]; exact hs⟩

/-- Witness for C3 at a single-line doc comment. -/
theorem single_line_collapse_witness :
    swiftStep (({} : BraceState), ({} : FileStats))
        ['/', '*', '*', ' ', 'x', ' ', '*', '/'] =
      (({} : BraceState), { ({} : FileStats) with docstring_lines := 1 }) :=
  ((single_line_collapse ({} : FileStats)
      ['/', '*', '*', ' ', 'x', ' ', '*', '/']).1 (by decide) (by decide)).1

/-- C5: in the brace-comment classifiers, a non-blank Normal-state line is
decided by the first matching opener in the fixed order doc-block, plain
block, doc line, line comment, code; in particular a doc-block opener line is
counted Documentation (never plain Comment) and a doc-line marker line is
counted Documentation (never ordinary Comment). -/
theorem opener_precedence (stats : FileStats) (line : List Char) :
    (docBlockOpen.isPrefixOf (pyStrip line) = true →
      (swiftStep (({} : BraceState), stats) line).2 =
        { stats with docstring_lines := stats.docstring_lines + 1 } ∧
      (kotlinStep (({} : BraceState), stats) line).2 =
        { stats with docstring_lines := stats.docstring_lines + 1 }) ∧
    (docBlockOpen.isPrefixOf (pyStrip line) = false →
      blockOpen.isPrefixOf (pyStrip line) = true →
      (swiftStep (({} : BraceState), stats) line).2 =
        { stats with comment_lines := stats.comment_lines + 1 } ∧
      (kotlinStep (({} : BraceState), stats) line).2 =
        { stats with comment_lines := stats.comment_lines + 1 }) ∧
    (docBlockOpen.isPrefixOf (pyStrip line) = false →
      blockOpen.isPrefixOf (pyStrip line) = false →
      docLineMarker.isPrefixOf (pyStrip line) = true →
      swiftStep (({} : BraceState), stats) line =
        (({} : BraceState),
          { stats with docstring_lines := stats.docstring_lines + 1 }) ∧
      kotlinStep (({} : BraceState), stats) line =
        (({} : BraceState),
          { stats with docstring_lines := stats.docstring_lines + 1 })) ∧
    (docBlockOpen.isPrefixOf (pyStrip line) = false →
      blockOpen.isPrefixOf (pyStrip line) = false →
      docLineMarker.isPrefixOf (pyStrip line) = false →
      lineCommentMarker.isPrefixOf (pyStrip line) = true →
      swiftStep (({} : BraceState), stats) line =
        (({} : BraceState),
          { stats with comment_lines := stats.comment_lines + 1 }) ∧
      kotlinStep (({} : BraceState), stats) line =
        (({} : BraceState),
          { stats with comment_lines := stats.comment_lines + 1 })) ∧
    ((pyStrip line).isEmpty = false →
      docBlockOpen.isPrefixOf (pyStrip line) = false →
      blockOpen.isPrefixOf (pyStrip line) = false →
      docLineMarker.isPrefixOf (pyStrip line) = false →
      lineCommentMarker.isPrefixOf (pyStrip line) = false →
      swiftStep (({} : BraceState), stats) line =
        (({} : BraceState), { stats with code_lines := stats.code_lines + 1 }) ∧
      kotlinStep (({} : BraceState), stats) line =
        (({} : BraceState), { stats with code_lines := stats.code_lines + 1 })) := by
  refine ⟨fun h1 => ?_, fun h0 h1 => ?_, fun h0 h1 h2 => ?_,
    fun h0 h1 h2 h3 => ?_, fun hne h0 h1 h2 h3 => ?_⟩
  · by_cases hc : containsSubl blockClose ((pyStrip line).drop 3) = true
    · have hs := swiftStep_doc_open_close stats line h1 hc
      exact ⟨by rw [hs], by rw [kotlinStep_eq_swiftStep, hs]⟩
    · have hs := swiftStep_doc_open_stay stats line h1 (by simpa using hc)
      exact ⟨by rw [hs], by rw [kotlinStep_eq_swiftStep, hs]⟩
  · by_cases hc : containsSubl blockClose ((pyStrip line).drop 2) = true
    · have hs := swiftStep_block_open_close stats line h0 h1 hc
      exact ⟨by rw [hs], by rw [kotlinStep_eq_swiftStep, hs]⟩
    · have hs := swiftStep_block_open_stay stats line h0 h1 (by simpa using hc)
      exact ⟨by rw [hs], by rw [kotlinStep_eq_swiftStep, hs]⟩
  · have hs := swiftStep_doc_line stats line h0 h1 h2
    exact ⟨hs, by rw [kotlinStep_eq_swiftStep]; exact hs⟩
  · have hs := swiftStep_line_comment stats line h0 h1 h2 h3
    exact ⟨hs, by rw [kotlinStep_eq_swiftStep]; exact hs⟩
  · have hs := swiftStep_code stats line hne h0 h1 h2 h3
    exact ⟨hs, by rw [kotlinStep_eq_swiftStep]; exact hs⟩

/-- Witness for C5 at a doc-line marker line. -/
theorem opener_precedence_witness :
    swiftStep (({} : BraceState), ({} : FileStats)) ['/', '/', '/', 'x'] =
      (({} : BraceState), { ({} : FileStats) with docstring_lines := 1 }) :=
  ((opener_precedence ({} : FileStats) ['/', '/', '/', 'x']).2.2.1
    (by decide) (by decide) (by decide)).1

/-- C4: a Python docstring opened by one triple-quote delimiter is not closed
by a line stripping to exactly the other delimiter — the line is counted
Documentation and the state is unchanged — while a line containing the
opening delimiter exits the docstring state and is still counted
Documentation. -/
theorem python_delimiter_fidelity (stats : FileStats) (line : List Char)
    (d dOther : List Char)
    (hd : d = tripleDouble ∧ dOther = tripleSingle ∨
      d = tripleSingle ∧ dOther = tripleDouble) :
    (pyStrip line = dOther →
      pythonStep ({ in_docstring := true, docstring_delimiter := some d },
          stats) line =
        ({ in_docstring := true, docstring_delimiter := some d },
          { stats with docstring_lines := stats.docstring_lines + 1 })) ∧
    (containsSubl d (pyStrip line) = true → (pyStrip line).isEmpty = false →
      pythonStep ({ in_docstring := true, docstring_delimiter := some d },
          stats) line =
        ({ in_docstring := false, docstring_delimiter := none },
          { stats with docstring_lines := stats.docstring_lines + 1 })) := by
  constructor
  · intro h
    rcases hd with ⟨hd1, hd2⟩ | ⟨hd1, hd2⟩
    · subst hd1; subst hd2
      simp [pythonStep, h,
        show (tripleSingle : List Char).isEmpty = false from by decide,
        show containsSubl tripleDouble tripleSingle = false from by decide]
    · subst hd1; subst hd2
      simp [pythonStep, h,
        show (tripleDouble : List Char).isEmpty = false from by decide,
        show containsSubl tripleSingle tripleDouble = false from by decide]
  · intro hc hne
    simp [pythonStep, hc, hne]

/-- Witness for C4: a docstring opened with the double-quote delimiter is not
closed by a single-quote delimiter line but is closed by a double-quote one. -/
theorem python_delimiter_fidelity_witness :
    pythonStep ({ in_docstring := true, docstring_delimiter := some tripleDouble },
        ({} : FileStats)) tripleSingle =
      ({ in_docstring := true, docstring_delimiter := some tripleDouble },
        { ({} : FileStats) with docstring_lines := 1 }) ∧
    pythonStep ({ in_docstring := true, docstring_delimiter := some tripleDouble },
        ({} : FileStats)) tripleDouble =
      ({ in_docstring := false, docstring_delimiter := none },
        { ({} : FileStats) with docstring_lines := 1 }) :=
  ⟨(python_delimiter_fidelity ({} : FileStats) tripleSingle tripleDouble
      tripleSingle (Or.inl ⟨rfl, rfl⟩)).1 (by decide),
   (python_delimiter_fidelity ({} : FileStats) tripleDouble tripleDouble
      tripleSingle (Or.inl ⟨rfl, rfl⟩)).2 (by decide) (by decide)⟩

/-- C6: aggregation over File Statistics records is order-insensitive and
splits over partitions: permuted file lists give equal aggregate counters and
file counts, and aggregating a concatenation of parts equals summing the
per-part aggregates. -/
theorem aggregation_perm_invariant :
    (∀ (nm nm2 : String) (l l2 : List FileStats), l.Perm l2 →
      (PlatformStats.mk nm l).total_files = (PlatformStats.mk nm2 l2).total_files ∧
      (PlatformStats.mk nm l).total_lines = (PlatformStats.mk nm2 l2).total_lines ∧
      (PlatformStats.mk nm l).code_lines = (PlatformStats.mk nm2 l2).code_lines ∧
      (PlatformStats.mk nm l).comment_lines = (PlatformStats.mk nm2 l2).comment_lines ∧
      (PlatformStats.mk nm l).docstring_lines = (PlatformStats.mk nm2 l2).docstring_lines ∧
      (PlatformStats.mk nm l).blank_lines = (PlatformStats.mk nm2 l2).blank_lines) ∧
    (∀ (nm : String) (parts : List (List FileStats)),
      (PlatformStats.mk nm parts.flatten).total_files =
        (parts.map (fun part => (PlatformStats.mk nm part).total_files)).sum ∧
      (PlatformStats.mk nm parts.flatten).total_lines =
        (parts.map (fun part => (PlatformStats.mk nm part).total_lines)).sum ∧
      (PlatformStats.mk nm parts.flatten).code_lines =
        (parts.map (fun part => (PlatformStats.mk nm part).code_lines)).sum ∧
      (PlatformStats.mk nm parts.flatten).comment_lines =
        (parts.map (fun part => (PlatformStats.mk nm part).comment_lines)).sum ∧
      (PlatformStats.mk nm parts.flatten).docstring_lines =
        (parts.map (fun part => (PlatformStats.mk nm part).docstring_lines)).sum ∧
      (PlatformStats.mk nm parts.flatten).blank_lines =
        (parts.map (fun part => (PlatformStats.mk nm part).blank_lines)).sum) := by
  constructor
  · intro nm nm2 l l2 hperm
    exact ⟨hperm.length_eq, (hperm.map _).sum_eq, (hperm.map _).sum_eq,
      (hperm.map _).sum_eq, (hperm.map _).sum_eq, (hperm.map _).sum_eq⟩
  · intro nm parts
    refine ⟨?_, ?_, ?_, ?_, ?_, ?_⟩
    all_goals simp [PlatformStats.total_files, PlatformStats.total_lines,
      PlatformStats.code_lines, PlatformStats.comment_lines,
      PlatformStats.docstring_lines, PlatformStats.blank_lines,
      List.map_flatten, List.sum_flatten, List.length_flatten, List.map_map,
      Function.comp_def]

/-- Witness for C6: swapping two files leaves the aggregate line total
unchanged. -/
theorem aggregation_perm_invariant_witness :
    ({ name := "A",
        files := [({ total_lines := 1 } : FileStats),
          ({ total_lines := 2 } : FileStats)] } : PlatformStats).total_lines =
      ({ name := "B",
          files := [({ total_lines := 2 } : FileStats),
            ({ total_lines := 1 } : FileStats)] } : PlatformStats).total_lines :=
  (aggregation_perm_invariant.1 "A" "B" _ _ (List.Perm.swap _ _ _)).2.1

/-- C10: with a nonnegative percentile argument, the percentile computation is
safe: with no files it returns 0, and with at least one file the clamped index
is in bounds and the result is the length of some file in the list; likewise
for the sorted-list helper. -/
theorem percentile_safe (ps : PlatformStats) (lengths : List Nat) (p : Rat)
    (hp : 0 ≤ p) :
    (ps.files = [] → ps.percentile p = some 0) ∧
    (ps.files ≠ [] → ∃ f ∈ ps.files, ps.percentile p = some f.total_lines) ∧
    (lengths = [] → pctl lengths p = some 0) ∧
    (lengths ≠ [] → ∃ v ∈ lengths, pctl lengths p = some v) := by
  refine ⟨?_, ?_, (pctl_spec lengths p hp).1, (pctl_spec lengths p hp).2⟩
  · intro h
    rw [percentile_eq_pctl]
    exact (pctl_spec ps.file_lengths p hp).1 (file_lengths_nil ps h)
  · intro h
    obtain ⟨v, hv, hev⟩ :=
      (pctl_spec ps.file_lengths p hp).2 (file_lengths_ne_nil ps h)
    obtain ⟨f, hf, hfv⟩ := file_lengths_mem ps v hv
    exact ⟨f, hf, by rw [percentile_eq_pctl, hev, hfv]⟩

/-- Witness for C10 on a one-file platform at the median. -/
theorem percentile_safe_witness :
    ∃ f ∈ [({ total_lines := 7 } : FileStats)],
      ({ name := "P",
          files := [({ total_lines := 7 } : FileStats)] } : PlatformStats).percentile
          50 = some f.total_lines :=
  (percentile_safe
      { name := "P", files := [({ total_lines := 7 } : FileStats)] } [] 50
      (by decide)).2.1 (by decide)
